import Mathlib

/-!
Verification of the file-comparison LLM CLI (`src/index.ts`, compiled copy
`src/dist/index.js`).

The program is a linear interactive flow: load a JSON history store, ensure
an OpenAI API key, initialize the client, let the user pick or enter a
"selector" text, read two files, build a two-message conversation, stream the
model response, and append a session record before saving the store.

The embedding below mirrors the source:
* JavaScript runtime values produced by `JSON.parse` are modelled by the
  inductive `Json`; the platform functions `JSON.stringify` / `JSON.parse`
  (which are not code of this repository) are modelled at the level of `Json`
  values, so the on-disk history file holds either nothing, text that is not
  valid JSON, or a parsed `Json` value (`FileContent`).
* `String.prototype.trim` is modelled by `jsTrim` (drop whitespace at both
  ends); JavaScript string truthiness (`""` is falsy) appears as explicit
  emptiness tests, and truthiness of `openAiApiKey : Option String` (both
  `undefined` and `""` are falsy) as `Option.getD "" · = ""`.
* Interactive answers, file-read results, the streamed completion events and
  the clock reading (`new Date().toISOString()`) are inputs of the run,
  collected in `Env`; `mainRun` is the `main()` flow over such an environment
  and returns the final on-disk file content, the in-memory store, and the
  stage at which the run ended.
-/

/-- JavaScript JSON values, the possible results of `JSON.parse`.
A JS object property whose value is `undefined` is observationally absent and
is dropped by `JSON.stringify`, so it is represented by the absence of the
field. -/
inductive Json where
  | null : Json
  | bool (b : Bool) : Json
  | num (n : Int) : Json
  | str (s : String) : Json
  | arr (elems : List Json) : Json
  | obj (fields : List (String × Json)) : Json

/-- Content of the history file on disk: either text that is not valid JSON
(`JSON.parse` would throw), or text parsing to the JSON value `j`.  A missing
file is `none` at the use sites (`Option FileContent`). -/
inductive FileContent where
  | invalid (raw : String) : FileContent
  | json (j : Json) : FileContent

/-- Model of `String.prototype.trim`: remove whitespace from both ends.
Written over `List Char` so that it evaluates by `rfl`. -/
def jsTrim (s : String) : String :=
  String.mk (((s.data.dropWhile Char.isWhitespace).reverse.dropWhile Char.isWhitespace).reverse)

/-- Auxiliary for `strContains`: does the first list start the second? -/
def begins : List Char → List Char → Bool
  | [], _ => true
  | _ :: _, [] => false
  | a :: as, b :: bs => a == b && begins as bs

/-- Auxiliary for `strContains`: does the first list occur contiguously inside
the second? -/
def seg (n : List Char) : List Char → Bool
  | [] => List.isEmpty n
  | c :: t => begins n (c :: t) || seg n t

/-- Substring occurrence: `strContains hay needle` is true when `needle`
occurs contiguously in `hay`. -/
def strContains (hay needle : String) : Bool :=
  seg needle.data hay.data

/-- One entry of the `sessions` array of the history file
(`HistoryData.sessions` element type in `src/index.ts`). -/
structure SessionRecord where
  id : Nat
  selectorText : String
  filePath1 : String
  filePath2 : String
  taskPrompt : String
  timestamp : String

/-- The persisted history store (`HistoryData` in `src/index.ts`).
`openAiApiKey` is optional in the TypeScript interface. -/
structure HistoryData where
  openAiApiKey : Option String
  rawTextsUsed : List String
  sessions : List SessionRecord

/-- The default store built in the `catch` branch of `loadHistory`:
`openAiApiKey: undefined, rawTextsUsed: [], sessions: []`. -/
def defaultHistory : HistoryData :=
  { openAiApiKey := none, rawTextsUsed := [], sessions := [] }

/-- Serialization of a `SessionRecord` by `JSON.stringify`, at the `Json`
value level. -/
def encodeSession (r : SessionRecord) : Json :=
  Json.obj [("id", Json.num r.id), ("selectorText", Json.str r.selectorText),
    ("filePath1", Json.str r.filePath1), ("filePath2", Json.str r.filePath2),
    ("taskPrompt", Json.str r.taskPrompt), ("timestamp", Json.str r.timestamp)]

/-- Serialization of the whole store by `JSON.stringify`, at the `Json` value
level: an `openAiApiKey` property holding `undefined` is dropped, the other
fields are emitted in declaration order. -/
def encodeHistory (h : HistoryData) : Json :=
  Json.obj ((match h.openAiApiKey with
      | some k => [("openAiApiKey", Json.str k)]
      | none => []) ++
    [("rawTextsUsed", Json.arr (h.rawTextsUsed.map Json.str)),
     ("sessions", Json.arr (h.sessions.map encodeSession))])

/-- The JS value returned by `loadHistory` on any failure, seen as a `Json`
value: the object literal with `openAiApiKey: undefined` (observationally
absent), `rawTextsUsed: []`, `sessions: []`. -/
def defaultHistoryJson : Json :=
  Json.obj [("rawTextsUsed", Json.arr []), ("sessions", Json.arr [])]

/-- Reading a `Json` value at type `string`. -/
def decodeString : Json → Option String
  | Json.str s => some s
  | _ => none

/-- Reading a list of `Json` values at type `string`, failing when any element
fails. -/
def decodeStrings : List Json → Option (List String)
  | [] => some []
  | j :: t =>
    match decodeString j, decodeStrings t with
    | some s, some ss => some (s :: ss)
    | _, _ => none

/-- Reading a `Json` value at type `string[]`. -/
def decodeStringList : Json → Option (List String)
  | Json.arr els => decodeStrings els
  | _ => none

/-- Reading a `Json` value at a non-negative integer type. -/
def decodeNat : Json → Option Nat
  | Json.num (Int.ofNat k) => some k
  | _ => none

/-- Reading a `Json` value at the shape of a session record.  This is the
well-formedness reading implicit in the TypeScript type `HistoryData`; the
code itself performs no such check. -/
def decodeSession (j : Json) : Option SessionRecord :=
  match j with
  | Json.obj fields =>
    match fields.lookup "id", fields.lookup "selectorText", fields.lookup "filePath1",
        fields.lookup "filePath2", fields.lookup "taskPrompt", fields.lookup "timestamp" with
    | some idJ, some selJ, some f1J, some f2J, some tJ, some tsJ =>
      match decodeNat idJ, decodeString selJ, decodeString f1J,
          decodeString f2J, decodeString tJ, decodeString tsJ with
      | some i, some sel, some f1, some f2, some t, some ts =>
        some { id := i, selectorText := sel, filePath1 := f1, filePath2 := f2,
               taskPrompt := t, timestamp := ts }
      | _, _, _, _, _, _ => none
    | _, _, _, _, _, _ => none
  | _ => none

/-- Reading a list of `Json` values at the session-record shape, failing when
any element fails. -/
def decodeSessions : List Json → Option (List SessionRecord)
  | [] => some []
  | j :: t =>
    match decodeSession j, decodeSessions t with
    | some r, some rs => some (r :: rs)
    | _, _ => none

/-- Reading a `Json` value at the shape of the history store (the
well-formedness reading of the TypeScript type `HistoryData`; the code itself
performs no such check when loading). -/
def decodeHistory (j : Json) : Option HistoryData :=
  match j with
  | Json.obj fields =>
    match (match fields.lookup "openAiApiKey" with
        | none => some none
        | some (Json.str s) => some (some s)
        | some _ => none),
      fields.lookup "rawTextsUsed", fields.lookup "sessions" with
    | some key, some rawJ, some sessJ =>
      match decodeStringList rawJ,
          (match sessJ with
           | Json.arr els => decodeSessions els
           | _ => none) with
      | some raw, some sess =>
        some { openAiApiKey := key, rawTextsUsed := raw, sessions := sess }
      | _, _ => none
    | _, _, _ => none
  | _ => none

/-- Model of `loadHistory`: `fs.readFileSync` plus `JSON.parse` inside
`try/catch`.  A missing file or invalid JSON throws and the `catch` branch
returns the default object; valid JSON is returned as parsed, with no shape
validation (the TypeScript return type is a cast).  The function is total: it
never raises to its caller. -/
def loadHistory : Option FileContent → Json
  | some (FileContent.json j) => j
  | _ => defaultHistoryJson

/-- Model of `saveHistory`: `JSON.stringify(historyData, null, 2)` written
with `fs.writeFileSync`; the result is the new content of the history file on
disk. -/
def saveHistory (historyData : HistoryData) : Option FileContent :=
  some (FileContent.json (encodeHistory historyData))

/-- Message roles of the `AIMessage` interface. -/
inductive AIRole where
  | system : AIRole
  | user : AIRole
  | assistant : AIRole
  deriving DecidableEq

/-- The `AIMessage` interface. -/
structure AIMessage where
  role : AIRole
  content : String
  deriving DecidableEq

/-- The `CurrentAIConversation` interface. -/
structure CurrentAIConversation where
  messages : List AIMessage
  deriving DecidableEq

/-- The fixed system-message text of step 7 of `main()`. -/
def systemMessageContent : String :=
  "You are a helpful assistant that compares two files and provides insights."

/-- The user-message template literal of step 7 of `main()`:
`answers.taskPrompt || "Compare and analyze the differences."` falls back to
the literal exactly when the task prompt is the empty string (JS falsiness of
`""`). -/
def userMessageContent (fileContent1 fileContent2 taskPrompt : String) : String :=
  "\nI have two files.\n\nFile 1 Content:\n" ++ fileContent1 ++
    "\n\nFile 2 Content:\n" ++ fileContent2 ++
    "\n\nTask: " ++
    (if taskPrompt = "" then "Compare and analyze the differences." else taskPrompt) ++ "\n"

/-- The conversation built at step 7 of `main()`.  All the local variables of
`main` in scope there are parameters; the source comment reads "omitting the
selectorText by request" and indeed `selectorText` is not used. -/
def conversationOfRun (selectorText fileContent1 fileContent2 taskPrompt : String) :
    CurrentAIConversation :=
  { messages :=
      [{ role := AIRole.system, content := systemMessageContent },
       { role := AIRole.user,
         content := userMessageContent fileContent1 fileContent2 taskPrompt }] }

/-- The provider client handle (`new OpenAI({ apiKey })`). -/
structure OpenAIClient where
  apiKey : String
  deriving DecidableEq

/-- Model of `initializeClient`.  The TypeScript parameter type is `string`,
but `main` passes `history.openAiApiKey!`, a non-null cast whose runtime value
may still be `undefined`; the input is therefore an `Option String`, and the
JS truthiness test `if (apiKey)` rejects both `undefined` and `""`.  No other
validation is performed. -/
def initializeClient : Option String → Except String OpenAIClient
  | some k => if k = "" then Except.error "Failed to initiate OpenAI Client"
      else Except.ok { apiKey := k }
  | none => Except.error "Failed to initiate OpenAI Client"

/-- Delta payload of one streamed choice (`choices[0].delta`); `content` is an
optional string. -/
structure StreamDelta where
  content : Option String
  deriving DecidableEq

/-- One choice of a streamed event. -/
structure StreamChoice where
  delta : StreamDelta
  deriving DecidableEq

/-- One event of the streamed completion. -/
structure StreamEvent where
  choices : List StreamChoice
  deriving DecidableEq

/-- The `for await` loop of `sendMessageToChatGPTWithStream`.  Each event is
read at `event.choices[0].delta.content`; indexing `choices[0]` on an empty
list yields `undefined` and the subsequent `.delta` access throws a
`TypeError`, modelled by `none`.  The truthiness test `if (...content)` skips
an absent (`undefined`) and an empty (`""`) delta; a contributing delta is
written to stdout (collected in `writes`) and appended to the accumulator. -/
def streamLoop : List StreamEvent → String → List String → Option (String × List String)
  | [], acc, writes => some (acc, writes)
  | e :: rest, acc, writes =>
    match e.choices with
    | [] => none
    | c :: _ =>
      match c.delta.content with
      | some s =>
        if s = "" then streamLoop rest acc writes
        else streamLoop rest (acc ++ s) (writes ++ [s])
      | none => streamLoop rest acc writes

/-- Model of `sendMessageToChatGPTWithStream`.  The global `openai` handle is
the first input (`null` before initialization); the `completion` input is the
result of `openai.chat.completions.create(...)`: an error when the request
setup rejected (caught and re-thrown as "Error in stream"), otherwise the
ordered list of streamed events.  The conversation is part of the outbound
request and does not influence the modelled result.  Returns the accumulated
message together with the ordered stdout writes. -/
def sendMessageToChatGPTWithStream (openai : Option OpenAIClient)
    (conversation : CurrentAIConversation)
    (completion : Except String (List StreamEvent)) :
    Except String (String × List String) :=
  match openai with
  | none => Except.error "OpenAI not initialized"
  | some _ =>
    match completion with
    | Except.error _ => Except.error "Error in stream"
    | Except.ok events =>
      match streamLoop events "" [] with
      | none => Except.error "TypeError"
      | some (message, writes) => Except.ok (message, writes)

/-- Specification-side view of the stream: the non-empty content deltas of the
first choice of each event, in arrival order. -/
def contentDeltas (events : List StreamEvent) : List String :=
  events.filterMap (fun e =>
    match e.choices with
    | [] => none
    | c :: _ =>
      match c.delta.content with
      | some s => if s = "" then none else some s
      | none => none)

/-- Concatenation of a list of strings in order. -/
def joinAll (l : List String) : String :=
  l.foldr (fun a b => a ++ b) ""

/-- Step 2 of `main()`: when the stored key is falsy (`undefined` or `""`) the
user is prompted, the trimmed answer is stored, and the store is immediately
persisted; otherwise nothing happens.  Returns the updated in-memory store and
the resulting on-disk file content. -/
def ensureApiKey (h0 : HistoryData) (apiKeyAnswer : String)
    (disk0 : Option FileContent) : HistoryData × Option FileContent :=
  if h0.openAiApiKey.getD "" = "" then
    let h1 : HistoryData := { h0 with openAiApiKey := some (jsTrim apiKeyAnswer) }
    (h1, saveHistory h1)
  else (h0, disk0)

/-- Step 4 of `main()`: the list answer `selectedOrNew` becomes the selector
text unless it is the sentinel "Enter new text", in which case the follow-up
free-text answer is used; that raw answer is appended to `rawTextsUsed` only
when its trimmed form is non-empty.  Returns `selectorText` and the updated
store. -/
def chooseRawText (h : HistoryData) (selectedOrNew newSelectorText : String) :
    String × HistoryData :=
  if selectedOrNew = "Enter new text" then
    if jsTrim newSelectorText ≠ "" then
      (newSelectorText, { h with rawTextsUsed := h.rawTextsUsed ++ [newSelectorText] })
    else (newSelectorText, h)
  else (selectedOrNew, h)

/-- Stage at which a run of `main()` ends. -/
inductive Stage where
  | initFailed : Stage
  | readFile1Failed : Stage
  | readFile2Failed : Stage
  | streamFailed : Stage
  | completed : Stage
  deriving DecidableEq

/-- Observable outcome of a run of `main()`: the ending stage, the history
file on disk at the end, the in-memory store, whether a session record was
appended, and the accumulated LLM response when one was obtained. -/
structure RunOutcome where
  stage : Stage
  disk : Option FileContent
  history : HistoryData
  sessionRecorded : Bool
  response : Option String

/-- Inputs of one run of `main()`: the initial history file, the interactive
answers, the results of the two file reads (`none` models a `readFileSync`
throw), the completion request result, and the clock reading taken at session
save (`new Date().toISOString()`). -/
structure Env where
  historyFile : Option FileContent
  apiKeyAnswer : String
  selectedOrNew : String
  newSelectorText : String
  filePath1 : String
  filePath2 : String
  taskPrompt : String
  fileRead1 : Option String
  fileRead2 : Option String
  completion : Except String (List StreamEvent)
  timestamp : String

/-- Steps 10 and 11 of `main()`: append the session record (id is
`sessions.length + 1`, the answers are stored raw) and persist the store. -/
def recordAndSave (env : Env) (h2 : HistoryData) (selectorText message : String) :
    RunOutcome :=
  let h3 : HistoryData :=
    { h2 with sessions := h2.sessions ++
        [{ id := h2.sessions.length + 1, selectorText := selectorText,
           filePath1 := env.filePath1, filePath2 := env.filePath2,
           taskPrompt := env.taskPrompt, timestamp := env.timestamp }] }
  { stage := Stage.completed, disk := saveHistory h3, history := h3,
    sessionRecorded := true, response := some message }

/-- Steps 8 and 9 of `main()`: the streaming call inside `try/catch`; on any
error from the client the flow returns early. -/
def afterReads (env : Env) (h2 : HistoryData) (disk1 : Option FileContent)
    (client : OpenAIClient) (selectorText fileContent1 fileContent2 : String) :
    RunOutcome :=
  match sendMessageToChatGPTWithStream (some client)
      (conversationOfRun selectorText fileContent1 fileContent2 env.taskPrompt)
      env.completion with
  | Except.error _ =>
    { stage := Stage.streamFailed, disk := disk1, history := h2,
      sessionRecorded := false, response := none }
  | Except.ok (message, _) => recordAndSave env h2 selectorText message

/-- Steps 4 to 9 of `main()` after client initialization: selector choice,
then the two guarded file reads (each `catch` returns early), then the
streaming call. -/
def afterInit (env : Env) (h1 : HistoryData) (disk1 : Option FileContent)
    (client : OpenAIClient) : RunOutcome :=
  match env.fileRead1 with
  | none =>
    { stage := Stage.readFile1Failed, disk := disk1,
      history := (chooseRawText h1 env.selectedOrNew env.newSelectorText).2,
      sessionRecorded := false, response := none }
  | some fileContent1 =>
    match env.fileRead2 with
    | none =>
      { stage := Stage.readFile2Failed, disk := disk1,
        history := (chooseRawText h1 env.selectedOrNew env.newSelectorText).2,
        sessionRecorded := false, response := none }
    | some fileContent2 =>
      afterReads env (chooseRawText h1 env.selectedOrNew env.newSelectorText).2 disk1
        client (chooseRawText h1 env.selectedOrNew env.newSelectorText).1
        fileContent1 fileContent2

/-- The `main()` flow on the store loaded from disk: ensure the API key
(step 2), initialize the client (step 3; the uncaught throw on a falsy key
ends the run), then the rest of the flow. -/
def mainAfterLoad (env : Env) (h0 : HistoryData) : RunOutcome :=
  match initializeClient (ensureApiKey h0 env.apiKeyAnswer env.historyFile).1.openAiApiKey with
  | Except.error _ =>
    { stage := Stage.initFailed,
      disk := (ensureApiKey h0 env.apiKeyAnswer env.historyFile).2,
      history := (ensureApiKey h0 env.apiKeyAnswer env.historyFile).1,
      sessionRecorded := false, response := none }
  | Except.ok client =>
    afterInit env (ensureApiKey h0 env.apiKeyAnswer env.historyFile).1
      (ensureApiKey h0 env.apiKeyAnswer env.historyFile).2 client

/-- One run of `main()`.  The loaded value is read at the `HistoryData` shape;
a file whose parsed value has the wrong shape puts the run outside this model
(untyped JavaScript behavior), hence the `Option`. -/
def mainRun (env : Env) : Option RunOutcome :=
  (decodeHistory (loadHistory env.historyFile)).map (mainAfterLoad env)

/-! ### General lemmas about the string and JSON helpers -/

theorem begins_self_append (n b : List Char) : begins n (n ++ b) = true := by
  induction n with
  | nil => rfl
  | cons a as ih => simp [begins, ih]

theorem seg_of_append (a n b : List Char) : seg n (a ++ n ++ b) = true := by
  induction a with
  | nil =>
    cases n with
    | nil =>
      cases b with
      | nil => rfl
      | cons c t => simp [seg, begins]
    | cons c t =>
      simp [seg, begins, begins_self_append]
  | cons c t ih =>
    rw [List.append_assoc] at ih
    simp only [List.cons_append, seg, List.append_eq, List.append_assoc]
    simp [ih]

theorem strContains_of_split (a n b : String) : strContains (a ++ n ++ b) n = true := by
  simp only [strContains, String.data_append]
  exact seg_of_append a.data n.data b.data

theorem strContains_of_eq (hay a n b : String) (h : hay = a ++ n ++ b) :
    strContains hay n = true := by
  rw [h]; exact strContains_of_split a n b

theorem decodeSession_encodeSession (r : SessionRecord) :
    decodeSession (encodeSession r) = some r := rfl

theorem decodeStrings_map_str (l : List String) :
    decodeStrings (l.map Json.str) = some l := by
  induction l with
  | nil => rfl
  | cons s t ih => simp [decodeStrings, decodeString, ih]

theorem decodeSessions_map_encode (l : List SessionRecord) :
    decodeSessions (l.map encodeSession) = some l := by
  induction l with
  | nil => rfl
  | cons r t ih => simp [decodeSessions, decodeSession_encodeSession, ih]

/-! ### C1: behavior of loadHistory on every file state -/

/-- C1 (amended): `loadHistory` never raises: it is total on every file
state.  When the file is missing or holds text that is not valid JSON it
returns the default store (key absent, `rawTextsUsed = []`, `sessions = []`,
as the last conjunct states through the shape reading); but a file that
parses to valid JSON is returned exactly as parsed, with no shape
validation. -/
theorem loadHistory_never_raises_defaults :
    loadHistory none = defaultHistoryJson ∧
    (∀ raw : String, loadHistory (some (FileContent.invalid raw)) = defaultHistoryJson) ∧
    (∀ j : Json, loadHistory (some (FileContent.json j)) = j) ∧
    decodeHistory defaultHistoryJson = some defaultHistory :=
  ⟨rfl, fun _ => rfl, fun _ => rfl, rfl⟩

/-- C1 counterexample: a history file holding valid JSON of the wrong shape
(the number 42) is NOT replaced by the default store: `loadHistory` returns
the parsed value as-is, contrary to the claim that any wrong-shape parse
yields the default. -/
theorem loadHistory_wrongShape_passthrough :
    loadHistory (some (FileContent.json (Json.num 42))) = Json.num 42 ∧
    decodeHistory (Json.num 42) = none ∧
    loadHistory (some (FileContent.json (Json.num 42))) ≠ defaultHistoryJson :=
  ⟨rfl, rfl, fun h => Json.noConfusion h⟩

/-! ### C5: save/load round trip -/

/-- C5: saving a well-formed store and loading it back yields the same store:
reading the loaded value at the `HistoryData` shape recovers `S` exactly. -/
theorem loadHistory_saveHistory_roundtrip (S : HistoryData) :
    decodeHistory (loadHistory (saveHistory S)) = some S := by
  obtain ⟨key, raw, sess⟩ := S
  have hload : loadHistory (saveHistory ⟨key, raw, sess⟩) =
      encodeHistory ⟨key, raw, sess⟩ := rfl
  rw [hload]
  cases key with
  | none =>
    simp [encodeHistory, decodeHistory, decodeStringList, decodeStrings_map_str,
      decodeSessions_map_encode, List.lookup]
  | some k =>
    simp [encodeHistory, decodeHistory, decodeStringList, decodeStrings_map_str,
      decodeSessions_map_encode, List.lookup]

/-! ### C8: client initialization -/

/-- C8: `initializeClient` fails with the initialization error exactly when
the supplied key is absent (`none`) or empty; for every non-empty key it
succeeds locally, returning a handle bound to exactly that key with no
further validation. -/
theorem initializeClient_spec (k : Option String) :
    initializeClient k =
      if k.getD "" = "" then Except.error "Failed to initiate OpenAI Client"
      else Except.ok { apiKey := k.getD "" } := by
  cases k with
  | none => rfl
  | some s =>
    by_cases h : s = "" <;> simp [initializeClient, Option.getD, h]

/-! ### C2 and C9: the streaming loop -/

theorem joinAll_cons (s : String) (l : List String) :
    joinAll (s :: l) = s ++ joinAll l := rfl

theorem streamLoop_ok (events : List StreamEvent) (acc : String) (writes : List String)
    (h : ∀ e ∈ events, e.choices ≠ []) :
    streamLoop events acc writes =
      some (acc ++ joinAll (contentDeltas events), writes ++ contentDeltas events) := by
  induction events generalizing acc writes with
  | nil => simp [streamLoop, contentDeltas, joinAll, String.append_empty]
  | cons e rest ih =>
    have he : e.choices ≠ [] := h e (by simp)
    have hrest : ∀ x ∈ rest, x.choices ≠ [] := fun x hx => h x (by simp [hx])
    cases hc : e.choices with
    | nil => exact absurd hc he
    | cons c cs =>
      cases hd : c.delta.content with
      | none =>
        simp [streamLoop, hc, hd, contentDeltas, List.filterMap_cons, ih acc writes hrest]
      | some s =>
        by_cases hs : s = ""
        · subst hs
          simp [streamLoop, hc, hd, contentDeltas, List.filterMap_cons, ih acc writes hrest]
        · simp only [streamLoop, hc, hd, if_neg hs, ih (acc ++ s) (writes ++ [s]) hrest,
            contentDeltas, List.filterMap_cons]
          simp [joinAll_cons, String.append_assoc, List.append_assoc]

/-- C2: when every delivered event carries at least one choice, the streaming
call returns the concatenation, in arrival order, of exactly the non-empty
content deltas of the first choice of each event, and writes exactly those
deltas, in that order, to standard output; an event whose delta content is
absent or empty contributes nothing and is not written. -/
theorem sendMessage_stream_concat (cl : OpenAIClient) (conv : CurrentAIConversation)
    (events : List StreamEvent) (h : ∀ e ∈ events, e.choices ≠ []) :
    sendMessageToChatGPTWithStream (some cl) conv (Except.ok events) =
      Except.ok (joinAll (contentDeltas events), contentDeltas events) := by
  simp [sendMessageToChatGPTWithStream, streamLoop_ok events "" [] h, String.empty_append]

/-- The stream of the spec example: deltas "He", "llo", "" and " world". -/
def exampleEvents : List StreamEvent :=
  [{ choices := [{ delta := { content := some "He" } }] },
   { choices := [{ delta := { content := some "llo" } }] },
   { choices := [{ delta := { content := some "" } }] },
   { choices := [{ delta := { content := some " world" } }] }]

/-- Witness for C2 at the spec example: the four deltas "He", "llo", ""
and " world" accumulate to "Hello world" and only the three non-empty ones
are written to standard output. -/
theorem sendMessage_stream_concat_example :
    (∀ e ∈ exampleEvents, e.choices ≠ []) ∧
    sendMessageToChatGPTWithStream (some { apiKey := "sk-test" })
        (conversationOfRun "demo" "A" "B" "") (Except.ok exampleEvents) =
      Except.ok ("Hello world", ["He", "llo", " world"]) :=
  ⟨by decide,
   Eq.trans (sendMessage_stream_concat { apiKey := "sk-test" }
     (conversationOfRun "demo" "A" "B" "") exampleEvents (by decide)) rfl⟩

theorem streamLoop_none_iff (events : List StreamEvent) (acc : String) (writes : List String) :
    streamLoop events acc writes = none ↔ ∃ e ∈ events, e.choices = [] := by
  induction events generalizing acc writes with
  | nil => simp [streamLoop]
  | cons e rest ih =>
    cases hc : e.choices with
    | nil => simp [streamLoop, hc]
    | cons c cs =>
      cases hd : c.delta.content with
      | none => simp [streamLoop, hc, hd, ih acc writes]
      | some s =>
        by_cases hs : s = ""
        · subst hs; simp [streamLoop, hc, hd, ih acc writes]
        · simp [streamLoop, hc, hd, if_neg hs, ih (acc ++ s) (writes ++ [s])]

/-- C9: the loop reads `event.choices[0].delta` without checking that
`choices` is non-empty, so the call fails (with the uncaught indexing
TypeError) exactly when some delivered event has an empty choices list, and
it returns a result exactly when every delivered event carries at least one
choice: an empty-choices event is never skipped. -/
theorem sendMessage_empty_choices_fails (cl : OpenAIClient)
    (conv : CurrentAIConversation) (events : List StreamEvent) :
    (sendMessageToChatGPTWithStream (some cl) conv (Except.ok events) =
        Except.error "TypeError" ↔ ∃ e ∈ events, e.choices = []) ∧
    ((∃ r, sendMessageToChatGPTWithStream (some cl) conv (Except.ok events) =
        Except.ok r) ↔ ∀ e ∈ events, e.choices ≠ []) := by
  constructor
  · cases hsl : streamLoop events "" [] with
    | none =>
      simp only [sendMessageToChatGPTWithStream, hsl]
      simpa using (streamLoop_none_iff events "" []).mp hsl
    | some p =>
      simp only [sendMessageToChatGPTWithStream, hsl]
      constructor
      · intro hcontra; exact absurd hcontra (by simp)
      · intro hex
        exact absurd ((streamLoop_none_iff events "" []).mpr hex) (by simp [hsl])
  · constructor
    · intro hr e he hchoices
      obtain ⟨r, hr⟩ := hr
      have : streamLoop events "" [] = none :=
        (streamLoop_none_iff events "" []).mpr ⟨e, he, hchoices⟩
      simp [sendMessageToChatGPTWithStream, this] at hr
    · intro hall
      refine ⟨(joinAll (contentDeltas events), contentDeltas events), ?_⟩
      simp [sendMessageToChatGPTWithStream, streamLoop_ok events "" [] hall,
        String.empty_append]

/-! ### C3: the constructed conversation -/

theorem strAppend_assoc_all (a b c : String) : a ++ b ++ c = a ++ (b ++ c) :=
  String.append_assoc a b c

/-- C3 (amended): the conversation has exactly two messages; the first is the
fixed system message, identical every run; the user message embeds file 1
verbatim right after the "File 1 Content:" label, file 2 verbatim right after
the "File 2 Content:" label, and "Task: " followed by the task prompt or, when
the prompt is empty, by the literal fallback; and the construction does not
take the selector text as an input: the conversation is the same whatever the
selector text of the run is (the selector can still occur in a message by
coincidence when it happens to be a substring of the embedded text). -/
theorem conversationOfRun_shape (sel f1 f2 t : String) :
    (conversationOfRun sel f1 f2 t).messages.length = 2 ∧
    (conversationOfRun sel f1 f2 t).messages.getD 0 { role := AIRole.user, content := "" } =
      { role := AIRole.system,
        content := "You are a helpful assistant that compares two files and provides insights." } ∧
    strContains (((conversationOfRun sel f1 f2 t).messages.getD 1
        { role := AIRole.user, content := "" }).content) ("File 1 Content:\n" ++ f1) = true ∧
    strContains (((conversationOfRun sel f1 f2 t).messages.getD 1
        { role := AIRole.user, content := "" }).content) ("File 2 Content:\n" ++ f2) = true ∧
    strContains (((conversationOfRun sel f1 f2 t).messages.getD 1
        { role := AIRole.user, content := "" }).content)
      ("Task: " ++ (if t = "" then "Compare and analyze the differences." else t)) = true ∧
    conversationOfRun sel f1 f2 t = conversationOfRun "" f1 f2 t := by
  refine ⟨rfl, rfl, ?_, ?_, ?_, rfl⟩
  · refine strContains_of_eq _ "\nI have two files.\n\n" _
      ("\n\nFile 2 Content:\n" ++ f2 ++ "\n\nTask: " ++
        (if t = "" then "Compare and analyze the differences." else t) ++ "\n") ?_
    show userMessageContent f1 f2 t = _
    unfold userMessageContent
    rw [show ("\nI have two files.\n\nFile 1 Content:\n" : String) =
      "\nI have two files.\n\n" ++ "File 1 Content:\n" from rfl]
    simp only [String.append_assoc]
  · refine strContains_of_eq _
      ("\nI have two files.\n\nFile 1 Content:\n" ++ f1 ++ "\n\n") _
      ("\n\nTask: " ++
        (if t = "" then "Compare and analyze the differences." else t) ++ "\n") ?_
    show userMessageContent f1 f2 t = _
    unfold userMessageContent
    rw [show ("\n\nFile 2 Content:\n" : String) = "\n\n" ++ "File 2 Content:\n" from rfl]
    simp only [String.append_assoc]
  · refine strContains_of_eq _
      ("\nI have two files.\n\nFile 1 Content:\n" ++ f1 ++
        "\n\nFile 2 Content:\n" ++ f2 ++ "\n\n") _ "\n" ?_
    show userMessageContent f1 f2 t = _
    unfold userMessageContent
    rw [show ("\n\nTask: " : String) = "\n\n" ++ "Task: " from rfl]
    simp only [String.append_assoc]

/-- C3 counterexample: the claim that the selector text never occurs in
either message is false as stated: in the run with selector text "I have",
file contents "A" and "B" and empty task prompt, the selector text does occur
in the user message (the fixed header contains it). -/
theorem conversation_contains_selector :
    strContains (((conversationOfRun "I have" "A" "B" "").messages.getD 1
      { role := AIRole.user, content := "" }).content) "I have" = true := by decide

/-! ### Structural lemmas about the main flow -/

theorem ensureApiKey_sessions (h0 : HistoryData) (a : String) (d : Option FileContent) :
    ((ensureApiKey h0 a d).1).sessions = h0.sessions := by
  unfold ensureApiKey; split <;> rfl

theorem ensureApiKey_rawTextsUsed (h0 : HistoryData) (a : String) (d : Option FileContent) :
    ((ensureApiKey h0 a d).1).rawTextsUsed = h0.rawTextsUsed := by
  unfold ensureApiKey; split <;> rfl

theorem ensureApiKey_disk_presentKey (h0 : HistoryData) (a : String) (d : Option FileContent)
    (h : h0.openAiApiKey.getD "" ≠ "") : (ensureApiKey h0 a d).2 = d := by
  unfold ensureApiKey; rw [if_neg h]

theorem chooseRawText_sessions (h : HistoryData) (s t : String) :
    ((chooseRawText h s t).2).sessions = h.sessions := by
  unfold chooseRawText
  split
  · split <;> rfl
  · rfl

theorem chooseRawText_sentinel (h : HistoryData) (t : String) :
    chooseRawText h "Enter new text" t =
      (t, if jsTrim t = "" then h
          else { h with rawTextsUsed := h.rawTextsUsed ++ [t] }) := by
  unfold chooseRawText
  by_cases hb : jsTrim t = "" <;> simp [hb]

/-- Exhaustive case analysis of a run after a successful load: it ends at one
of the five stages, with the outcome shape of that stage. -/
theorem mainAfterLoad_cases (env : Env) (h0 : HistoryData) :
    mainAfterLoad env h0 =
      { stage := Stage.initFailed,
        disk := (ensureApiKey h0 env.apiKeyAnswer env.historyFile).2,
        history := (ensureApiKey h0 env.apiKeyAnswer env.historyFile).1,
        sessionRecorded := false, response := none } ∨
    mainAfterLoad env h0 =
      { stage := Stage.readFile1Failed,
        disk := (ensureApiKey h0 env.apiKeyAnswer env.historyFile).2,
        history := (chooseRawText (ensureApiKey h0 env.apiKeyAnswer env.historyFile).1
          env.selectedOrNew env.newSelectorText).2,
        sessionRecorded := false, response := none } ∨
    mainAfterLoad env h0 =
      { stage := Stage.readFile2Failed,
        disk := (ensureApiKey h0 env.apiKeyAnswer env.historyFile).2,
        history := (chooseRawText (ensureApiKey h0 env.apiKeyAnswer env.historyFile).1
          env.selectedOrNew env.newSelectorText).2,
        sessionRecorded := false, response := none } ∨
    mainAfterLoad env h0 =
      { stage := Stage.streamFailed,
        disk := (ensureApiKey h0 env.apiKeyAnswer env.historyFile).2,
        history := (chooseRawText (ensureApiKey h0 env.apiKeyAnswer env.historyFile).1
          env.selectedOrNew env.newSelectorText).2,
        sessionRecorded := false, response := none } ∨
    (∃ message : String, mainAfterLoad env h0 =
      recordAndSave env
        (chooseRawText (ensureApiKey h0 env.apiKeyAnswer env.historyFile).1
          env.selectedOrNew env.newSelectorText).2
        (chooseRawText (ensureApiKey h0 env.apiKeyAnswer env.historyFile).1
          env.selectedOrNew env.newSelectorText).1 message) := by
  unfold mainAfterLoad
  split
  · left; rfl
  · unfold afterInit
    split
    · right; left; rfl
    · split
      · right; right; left; rfl
      · unfold afterReads
        split
        · right; right; right; left; rfl
        · right; right; right; right; exact ⟨_, rfl⟩

/-- When either file read fails, the run never reaches the recording stage:
it ends at one of the abort stages with no session appended and the disk
still holding whatever the API-key step left. -/
theorem mainAfterLoad_readFail (env : Env) (h0 : HistoryData)
    (hfail : env.fileRead1 = none ∨ env.fileRead2 = none) :
    mainAfterLoad env h0 =
      { stage := Stage.initFailed,
        disk := (ensureApiKey h0 env.apiKeyAnswer env.historyFile).2,
        history := (ensureApiKey h0 env.apiKeyAnswer env.historyFile).1,
        sessionRecorded := false, response := none } ∨
    mainAfterLoad env h0 =
      { stage := Stage.readFile1Failed,
        disk := (ensureApiKey h0 env.apiKeyAnswer env.historyFile).2,
        history := (chooseRawText (ensureApiKey h0 env.apiKeyAnswer env.historyFile).1
          env.selectedOrNew env.newSelectorText).2,
        sessionRecorded := false, response := none } ∨
    mainAfterLoad env h0 =
      { stage := Stage.readFile2Failed,
        disk := (ensureApiKey h0 env.apiKeyAnswer env.historyFile).2,
        history := (chooseRawText (ensureApiKey h0 env.apiKeyAnswer env.historyFile).1
          env.selectedOrNew env.newSelectorText).2,
        sessionRecorded := false, response := none } := by
  unfold mainAfterLoad
  split
  · left; rfl
  · unfold afterInit
    rcases hfail with hf | hf
    · rw [hf]; right; left; rfl
    · cases hf1 : env.fileRead1 with
      | none => right; left; rfl
      | some c1 => rw [hf]; right; right; rfl

/-! ### C4: file-read failure aborts before RecordSession and SaveHistory -/

/-- C4: if reading either input file fails, the run aborts before the
recording stage: no session record is appended (neither the flag nor the
in-memory sessions list changes), and the history file on disk is exactly
what the API-key step left it — in particular, when the stored key was
already present and non-empty, the file is unchanged from its state before
the run. -/
theorem fileReadFailure_aborts (env : Env) (h0 : HistoryData) (out : RunOutcome)
    (hd : decodeHistory (loadHistory env.historyFile) = some h0)
    (hrun : mainRun env = some out)
    (hfail : env.fileRead1 = none ∨ env.fileRead2 = none) :
    out.sessionRecorded = false ∧
    out.history.sessions = h0.sessions ∧
    out.disk = (ensureApiKey h0 env.apiKeyAnswer env.historyFile).2 ∧
    (h0.openAiApiKey.getD "" ≠ "" → out.disk = env.historyFile) := by
  have hout : mainAfterLoad env h0 = out := by
    unfold mainRun at hrun
    rw [hd] at hrun
    simpa using hrun
  subst hout
  rcases mainAfterLoad_readFail env h0 hfail with h | h | h <;> rw [h]
  · exact ⟨rfl, ensureApiKey_sessions h0 env.apiKeyAnswer env.historyFile, rfl,
      fun hk => ensureApiKey_disk_presentKey h0 env.apiKeyAnswer env.historyFile hk⟩
  · refine ⟨rfl, ?_, rfl,
      fun hk => ensureApiKey_disk_presentKey h0 env.apiKeyAnswer env.historyFile hk⟩
    rw [chooseRawText_sessions, ensureApiKey_sessions]
  · refine ⟨rfl, ?_, rfl,
      fun hk => ensureApiKey_disk_presentKey h0 env.apiKeyAnswer env.historyFile hk⟩
    rw [chooseRawText_sessions, ensureApiKey_sessions]

/-- A well-formed store with a stored key and two recorded sessions, used as
the initial state of concrete runs. -/
def histTwoSessions : HistoryData :=
  { openAiApiKey := some "sk-test", rawTextsUsed := ["demo"],
    sessions :=
      [{ id := 1, selectorText := "demo", filePath1 := "a.txt", filePath2 := "b.txt",
         taskPrompt := "", timestamp := "2026-01-01T00:00:00.000Z" },
       { id := 2, selectorText := "demo", filePath1 := "a.txt", filePath2 := "b.txt",
         taskPrompt := "", timestamp := "2026-01-02T00:00:00.000Z" }] }

/-- A one-event stream whose single delta is "diff found". -/
def okStream : Except String (List StreamEvent) :=
  Except.ok [{ choices := [{ delta := { content := some "diff found" } }] }]

/-- A run whose first file read fails. -/
def envReadFail : Env :=
  { historyFile := saveHistory histTwoSessions, apiKeyAnswer := "",
    selectedOrNew := "demo", newSelectorText := "",
    filePath1 := "missing.txt", filePath2 := "bar.txt", taskPrompt := "",
    fileRead1 := none, fileRead2 := some "beta", completion := okStream,
    timestamp := "2026-02-03T04:05:06.000Z" }

/-- Witness for C4: with a stored non-empty key and a failing first file
read, the run records no session and leaves the history file exactly as it
was before the run. -/
theorem fileReadFailure_aborts_example :
    (mainAfterLoad envReadFail histTwoSessions).sessionRecorded = false ∧
    (mainAfterLoad envReadFail histTwoSessions).history.sessions = histTwoSessions.sessions ∧
    (mainAfterLoad envReadFail histTwoSessions).disk = envReadFail.historyFile ∧
    (histTwoSessions.openAiApiKey.getD "" ≠ "" →
      (mainAfterLoad envReadFail histTwoSessions).disk = envReadFail.historyFile) :=
  fileReadFailure_aborts envReadFail histTwoSessions
    (mainAfterLoad envReadFail histTwoSessions) rfl rfl (Or.inl rfl)

theorem recordAndSave_history (env : Env) (h2 : HistoryData) (sel msg : String) :
    (recordAndSave env h2 sel msg).history =
      { h2 with sessions := h2.sessions ++
          [{ id := h2.sessions.length + 1, selectorText := sel,
             filePath1 := env.filePath1, filePath2 := env.filePath2,
             taskPrompt := env.taskPrompt, timestamp := env.timestamp }] } := rfl

/-- A run that ends at the completed stage went through the recording stage
with the post-selector store and selector text. -/
theorem mainAfterLoad_completed (env : Env) (h0 : HistoryData)
    (hc : (mainAfterLoad env h0).stage = Stage.completed) :
    ∃ message : String, mainAfterLoad env h0 =
      recordAndSave env
        (chooseRawText (ensureApiKey h0 env.apiKeyAnswer env.historyFile).1
          env.selectedOrNew env.newSelectorText).2
        (chooseRawText (ensureApiKey h0 env.apiKeyAnswer env.historyFile).1
          env.selectedOrNew env.newSelectorText).1 message := by
  rcases mainAfterLoad_cases env h0 with h | h | h | h | h
  · rw [h] at hc; exact Stage.noConfusion hc
  · rw [h] at hc; exact Stage.noConfusion hc
  · rw [h] at hc; exact Stage.noConfusion hc
  · rw [h] at hc; exact Stage.noConfusion hc
  · exact h

/-! ### C6: the appended session record -/

/-- C6: a completed run appends exactly one record to the sessions list; its
id is the length of the list before the append plus 1, and it stores the raw
(non-normalized) answers — the selector text of the run, the two file paths
and the task prompt as typed — together with the run's clock reading
(`new Date().toISOString()`). -/
theorem recordSession_fields (env : Env) (h0 : HistoryData) (out : RunOutcome)
    (hd : decodeHistory (loadHistory env.historyFile) = some h0)
    (hrun : mainRun env = some out)
    (hc : out.stage = Stage.completed) :
    ∃ r : SessionRecord,
      out.history.sessions = h0.sessions ++ [r] ∧
      r.id = h0.sessions.length + 1 ∧
      r.selectorText = (chooseRawText (ensureApiKey h0 env.apiKeyAnswer env.historyFile).1
        env.selectedOrNew env.newSelectorText).1 ∧
      r.filePath1 = env.filePath1 ∧ r.filePath2 = env.filePath2 ∧
      r.taskPrompt = env.taskPrompt ∧ r.timestamp = env.timestamp := by
  have hout : mainAfterLoad env h0 = out := by
    unfold mainRun at hrun
    rw [hd] at hrun
    simpa using hrun
  rw [← hout] at hc
  obtain ⟨message, h⟩ := mainAfterLoad_completed env h0 hc
  have hsess : (chooseRawText (ensureApiKey h0 env.apiKeyAnswer env.historyFile).1
      env.selectedOrNew env.newSelectorText).2.sessions = h0.sessions := by
    rw [chooseRawText_sessions, ensureApiKey_sessions]
  refine ⟨{ id := h0.sessions.length + 1,
            selectorText := (chooseRawText (ensureApiKey h0 env.apiKeyAnswer env.historyFile).1
              env.selectedOrNew env.newSelectorText).1,
            filePath1 := env.filePath1, filePath2 := env.filePath2,
            taskPrompt := env.taskPrompt, timestamp := env.timestamp },
    ?_, rfl, rfl, rfl, rfl, rfl, rfl⟩
  rw [← hout, h, recordAndSave_history]
  dsimp only
  rw [hsess]

/-- A completed run through the selector prompt, with selector "demo" picked
from the stored texts. -/
def envTwoSessions : Env :=
  { historyFile := saveHistory histTwoSessions, apiKeyAnswer := "",
    selectedOrNew := "demo", newSelectorText := "",
    filePath1 := "foo.txt", filePath2 := "bar.txt", taskPrompt := "",
    fileRead1 := some "alpha", fileRead2 := some "beta", completion := okStream,
    timestamp := "2026-02-03T04:05:06.000Z" }

/-- Witness for C6: appending to a store that already holds 2 sessions yields
a record with id 3, storing the answers as typed and the run's timestamp. -/
theorem recordSession_fields_example :
    ∃ r : SessionRecord,
      (mainAfterLoad envTwoSessions histTwoSessions).history.sessions =
        histTwoSessions.sessions ++ [r] ∧
      r.id = 3 ∧
      r.selectorText = "demo" ∧
      r.filePath1 = "foo.txt" ∧ r.filePath2 = "bar.txt" ∧
      r.taskPrompt = "" ∧ r.timestamp = "2026-02-03T04:05:06.000Z" :=
  recordSession_fields envTwoSessions histTwoSessions
    (mainAfterLoad envTwoSessions histTwoSessions) rfl rfl rfl

/-- Characterization of a completed run in which the sentinel "Enter new
text" was chosen: the reuse list gains the raw entered text exactly when its
trimmed form is non-empty, and the appended session record carries the raw
entered text as its selector text in both cases. -/
theorem sentinel_run_characterization (env : Env) (h0 : HistoryData) (out : RunOutcome)
    (hd : decodeHistory (loadHistory env.historyFile) = some h0)
    (hrun : mainRun env = some out)
    (hc : out.stage = Stage.completed)
    (hsel : env.selectedOrNew = "Enter new text") :
    out.history.rawTextsUsed =
      (if jsTrim env.newSelectorText = "" then h0.rawTextsUsed
       else h0.rawTextsUsed ++ [env.newSelectorText]) ∧
    ∃ r : SessionRecord, out.history.sessions = h0.sessions ++ [r] ∧
      r.selectorText = env.newSelectorText := by
  have hout : mainAfterLoad env h0 = out := by
    unfold mainRun at hrun
    rw [hd] at hrun
    simpa using hrun
  rw [← hout] at hc
  obtain ⟨message, h⟩ := mainAfterLoad_completed env h0 hc
  have hq : chooseRawText (ensureApiKey h0 env.apiKeyAnswer env.historyFile).1
      env.selectedOrNew env.newSelectorText =
      (env.newSelectorText,
        if jsTrim env.newSelectorText = "" then
          (ensureApiKey h0 env.apiKeyAnswer env.historyFile).1
        else { (ensureApiKey h0 env.apiKeyAnswer env.historyFile).1 with
          rawTextsUsed :=
            (ensureApiKey h0 env.apiKeyAnswer env.historyFile).1.rawTextsUsed ++
              [env.newSelectorText] }) := by
    rw [hsel]
    exact chooseRawText_sentinel _ _
  rw [← hout, h, recordAndSave_history, hq]
  dsimp only
  constructor
  · by_cases hne : jsTrim env.newSelectorText = ""
    · rw [if_pos hne, if_pos hne]
      exact ensureApiKey_rawTextsUsed h0 env.apiKeyAnswer env.historyFile
    · rw [if_neg hne, if_neg hne]
      dsimp only
      rw [ensureApiKey_rawTextsUsed]
  · refine ⟨{ id := h0.sessions.length + 1, selectorText := env.newSelectorText,
              filePath1 := env.filePath1, filePath2 := env.filePath2,
              taskPrompt := env.taskPrompt, timestamp := env.timestamp }, ?_, rfl⟩
    have hXs : (if jsTrim env.newSelectorText = "" then
        (ensureApiKey h0 env.apiKeyAnswer env.historyFile).1
      else { (ensureApiKey h0 env.apiKeyAnswer env.historyFile).1 with
        rawTextsUsed :=
          (ensureApiKey h0 env.apiKeyAnswer env.historyFile).1.rawTextsUsed ++
            [env.newSelectorText] }).sessions = h0.sessions := by
      split
      · exact ensureApiKey_sessions h0 env.apiKeyAnswer env.historyFile
      · exact ensureApiKey_sessions h0 env.apiKeyAnswer env.historyFile
    rw [hXs]

/-! ### C7: the sentinel append behavior -/

/-- C7: in a completed run that chose the sentinel "Enter new text", entering
a string whose trimmed form is non-empty appends exactly that one new entry
to `rawTextsUsed`, preserving the prior entries and their order; entering a
string that trims to empty appends nothing — while in both cases the entered
text is the selector text recorded in the appended session. -/
theorem sentinel_rawTexts (env : Env) (h0 : HistoryData) (out : RunOutcome)
    (hd : decodeHistory (loadHistory env.historyFile) = some h0)
    (hrun : mainRun env = some out)
    (hc : out.stage = Stage.completed)
    (hsel : env.selectedOrNew = "Enter new text") :
    (jsTrim env.newSelectorText ≠ "" →
      out.history.rawTextsUsed = h0.rawTextsUsed ++ [env.newSelectorText]) ∧
    (jsTrim env.newSelectorText = "" →
      out.history.rawTextsUsed = h0.rawTextsUsed) ∧
    ∃ r : SessionRecord, out.history.sessions = h0.sessions ++ [r] ∧
      r.selectorText = env.newSelectorText := by
  obtain ⟨hraw, hrec⟩ := sentinel_run_characterization env h0 out hd hrun hc hsel
  refine ⟨fun hne => ?_, fun he => ?_, hrec⟩
  · rw [hraw, if_neg hne]
  · rw [hraw, if_pos he]

/-- A completed sentinel run whose entered text is only whitespace. -/
def envBlankSelector : Env :=
  { historyFile := saveHistory histTwoSessions, apiKeyAnswer := "",
    selectedOrNew := "Enter new text", newSelectorText := "   ",
    filePath1 := "foo.txt", filePath2 := "bar.txt", taskPrompt := "",
    fileRead1 := some "alpha", fileRead2 := some "beta", completion := okStream,
    timestamp := "2026-02-03T04:05:06.000Z" }

/-- Witness for C7: entering "   " (trims to empty) appends nothing to the
reuse list, yet the appended session still records "   " as its selector
text. -/
theorem sentinel_rawTexts_example :
    (jsTrim "   " ≠ "" →
      (mainAfterLoad envBlankSelector histTwoSessions).history.rawTextsUsed =
        histTwoSessions.rawTextsUsed ++ ["   "]) ∧
    (jsTrim "   " = "" →
      (mainAfterLoad envBlankSelector histTwoSessions).history.rawTextsUsed =
        histTwoSessions.rawTextsUsed) ∧
    ∃ r : SessionRecord,
      (mainAfterLoad envBlankSelector histTwoSessions).history.sessions =
        histTwoSessions.sessions ++ [r] ∧ r.selectorText = "   " :=
  sentinel_rawTexts envBlankSelector histTwoSessions
    (mainAfterLoad envBlankSelector histTwoSessions) rfl rfl rfl rfl

/-! ### C10: the raw, untrimmed input is what gets stored -/

/-- C10: in a completed sentinel run whose entered text trims to a non-empty
string, the value appended to `rawTextsUsed` and the selector text recorded
in the session are the raw, untrimmed input; only the emptiness test uses the
trimmed string, so whenever the input differs from its trimmed form the
trimmed form is NOT what was appended. -/
theorem sentinel_preserves_raw_input (env : Env) (h0 : HistoryData) (out : RunOutcome)
    (hd : decodeHistory (loadHistory env.historyFile) = some h0)
    (hrun : mainRun env = some out)
    (hc : out.stage = Stage.completed)
    (hsel : env.selectedOrNew = "Enter new text")
    (hne : jsTrim env.newSelectorText ≠ "") :
    out.history.rawTextsUsed = h0.rawTextsUsed ++ [env.newSelectorText] ∧
    (env.newSelectorText ≠ jsTrim env.newSelectorText →
      out.history.rawTextsUsed ≠ h0.rawTextsUsed ++ [jsTrim env.newSelectorText]) ∧
    ∃ r : SessionRecord, out.history.sessions = h0.sessions ++ [r] ∧
      r.selectorText = env.newSelectorText := by
  obtain ⟨hraw, hrec⟩ := sentinel_run_characterization env h0 out hd hrun hc hsel
  rw [if_neg hne] at hraw
  refine ⟨hraw, fun hneq hcontra => ?_, hrec⟩
  have hl : h0.rawTextsUsed ++ [env.newSelectorText] =
      h0.rawTextsUsed ++ [jsTrim env.newSelectorText] := hraw.symm.trans hcontra
  have hs : env.newSelectorText = jsTrim env.newSelectorText := by
    have := List.append_cancel_left hl
    simpa using this
  exact hneq hs

/-- A completed sentinel run whose entered text " x " carries surrounding
whitespace. -/
def envPaddedSelector : Env :=
  { historyFile := saveHistory histTwoSessions, apiKeyAnswer := "",
    selectedOrNew := "Enter new text", newSelectorText := " x ",
    filePath1 := "foo.txt", filePath2 := "bar.txt", taskPrompt := "",
    fileRead1 := some "alpha", fileRead2 := some "beta", completion := okStream,
    timestamp := "2026-02-03T04:05:06.000Z" }

/-- Witness for C10: entering " x " appends exactly " x " (not "x") to the
reuse list and records " x " as the session's selector text. -/
theorem sentinel_preserves_raw_input_example :
    (mainAfterLoad envPaddedSelector histTwoSessions).history.rawTextsUsed =
      histTwoSessions.rawTextsUsed ++ [" x "] ∧
    (" x " ≠ jsTrim " x " →
      (mainAfterLoad envPaddedSelector histTwoSessions).history.rawTextsUsed ≠
        histTwoSessions.rawTextsUsed ++ [jsTrim " x "]) ∧
    ∃ r : SessionRecord,
      (mainAfterLoad envPaddedSelector histTwoSessions).history.sessions =
        histTwoSessions.sessions ++ [r] ∧ r.selectorText = " x " :=
  sentinel_preserves_raw_input envPaddedSelector histTwoSessions
    (mainAfterLoad envPaddedSelector histTwoSessions) rfl rfl rfl rfl (by decide)
